import Mathlib

/-
Verification of the MRZ field-normalization core of ScanImagePython
(`scanImagePython.py`): the date resolver `parse_mrz_date`, the name
resolver `parse_mrz_name`, and the field assembly in `scan_mrz`.

Strings are modelled by Lean `String`, manipulated through their
character lists (`String.data`), which matches Python's character-wise
slicing/splitting on the ASCII inputs the program handles.
-/

/-- Numeric value of a list of ASCII digit characters, most significant
first: the embedding of Python `int()` applied to a digit substring. -/
def digitsVal (cs : List Char) : Nat :=
  cs.foldl (fun n c => 10 * n + (c.toNat - 48)) 0

/-- Embedding of `PassportScannerApp.parse_mrz_date` (lines 137-149):
convert `YYMMDD` to `DD/MM/YYYY`.  The mutable flag
`self.is_expiration_date` read by the method body is passed explicitly.
Returns `"Invalid date"` when the input is not exactly 6 digit
characters; otherwise resolves the century by a fixed pivot of 30
(`< 30` for expiration dates, `> 30` for birth dates) and formats
day/month verbatim from the input. -/
def parse_mrz_date (is_expiration_date : Bool) (mrz_date : String) : String :=
  let cs := mrz_date.data
  if cs.length ≠ 6 ∨ ¬ cs.all Char.isDigit then "Invalid date"
  else
    let yy := cs.take 2
    let year : List Char :=
      if is_expiration_date then
        if digitsVal yy < 30 then '2' :: '0' :: yy else '1' :: '9' :: yy
      else
        if digitsVal yy > 30 then '1' :: '9' :: yy else '2' :: '0' :: yy
    ((cs.drop 4).take 2 ++ '/' :: (cs.drop 2).take 2 ++ '/' :: year).asString

/-- A Python value handed to `parse_mrz_name`: either a `str`, or any
non-string value (`None`, a number, ...), which the method rejects with
its `isinstance` check. -/
inductive PyValue where
  | str (s : String)
  | nonStr
deriving DecidableEq

/-- Embedding of Python `str.split(sep)` for a single-character
separator, on character lists: `"a<<b"` splits into `["a", "", "b"]`. -/
def splitOnChar (sep : Char) : List Char → List (List Char)
  | [] => [[]]
  | c :: cs =>
    match splitOnChar sep cs with
    | [] => [[c]]
    | r :: rs => if c = sep then [] :: r :: rs else (c :: r) :: rs

/-- Embedding of Python `str.strip()`: drop leading and trailing
whitespace characters. -/
def trimList (cs : List Char) : List Char :=
  ((cs.dropWhile Char.isWhitespace).reverse.dropWhile Char.isWhitespace).reverse

/-- The list comprehension of line 158:
`[part.strip() for part in mrz_name.split('<') if part.strip()]` —
split on `'<'`, strip each part, keep the non-empty ones in order. -/
def nameParts (cs : List Char) : List (List Char) :=
  ((splitOnChar '<' cs).map trimList).filter (fun p => !p.isEmpty)

/-- Embedding of `PassportScannerApp.parse_mrz_name` (lines 151-166):
convert `SURNAME<GIVENNAMES` to `"GIVENNAME SURNAME"`.  Empty or
non-string input yields `"Unknown"`; input without `'<'` passes through
unchanged; otherwise the stripped non-empty segments decide the result.
(The `try`/`except` of the source is unreachable for string input, so
the embedding has no fallback branch.) -/
def parse_mrz_name (mrz_name : PyValue) : String :=
  match mrz_name with
  | .nonStr => "Unknown"
  | .str s =>
    if s.data.isEmpty then "Unknown"
    else if '<' ∈ s.data then
      match nameParts s.data with
      | p0 :: p1 :: _ => (p1 ++ ' ' :: p0).asString
      | [p0] => p0.asString
      | [] => "Unknown"
    else s

/-- The OCR result mapping `mrz.to_dict()` restricted to the keys
`scan_mrz` reads; a `none` field models a missing key, so `Option.getD`
embeds Python `dict.get(key, default)` (and plain `dict.get(key)` for
`sex`, whose missing-key value `None` is `none`). -/
structure MrzData where
  type : Option String
  country : Option String
  number : Option String
  date_of_birth : Option String
  expiration_date : Option String
  nationality : Option String
  sex : Option String
  names : Option String

/-- Embedding of the field assembly of `scan_mrz` (lines 226-239): the
ordered list of `(label, displayValue)` pairs.  The source sets
`self.is_expiration_date = True` around the expiration-date call and
resets it to `False` before the birth-date call, which the embedding
renders as the explicit flag arguments `true` and `false`. -/
def scan_mrz_fields (m : MrzData) : List (String × String) :=
  let expiration_date := parse_mrz_date true (m.expiration_date.getD "000000")
  [("Document Type", m.type.getD "Unknown"),
   ("Issuing Country", m.country.getD "Unknown"),
   ("Passport Number", m.number.getD "Unknown"),
   ("Date of Birth", parse_mrz_date false (m.date_of_birth.getD "000000")),
   ("Expiration Date", expiration_date),
   ("Nationality", m.nationality.getD "Unknown"),
   ("Gender", if m.sex = some "M" then "Male" else "Female"),
   ("Full Name", parse_mrz_name (.str (m.names.getD "Unknown")))]

/-- The mutable state of `PassportScannerApp` that the resolver methods
could in principle touch: the date-mode flag plus the other instance
variables set in `__init__`. -/
structure AppState where
  is_expiration_date : Bool
  current_image_path : Option String
  tesseract_path : Option String
deriving DecidableEq

/-- `parse_mrz_date` as a method on the application object: it reads
`self.is_expiration_date` and writes nothing, so the state passes
through unchanged. -/
def parse_mrz_date_method (st : AppState) (mrz_date : String) :
    String × AppState :=
  (parse_mrz_date st.is_expiration_date mrz_date, st)

/-- `parse_mrz_name` as a method on the application object: it reads no
instance variable and writes nothing. -/
def parse_mrz_name_method (st : AppState) (mrz_name : PyValue) :
    String × AppState :=
  (parse_mrz_name mrz_name, st)

/-! ## Helper lemmas -/

lemma data_asString (l : List Char) : (List.asString l).data = l := rfl

lemma list_len_eq_six {α : Type} {cs : List α} (h : cs.length = 6) :
    ∃ a b c d e f, cs = [a, b, c, d, e, f] := by
  rcases cs with _ | ⟨a, _ | ⟨b, _ | ⟨c, _ | ⟨d, _ | ⟨e, _ | ⟨f, _ | ⟨g, t⟩⟩⟩⟩⟩⟩⟩ <;>
    simp_all

/-! ## Claim theorems -/

/-- C2: an input that is not exactly 6 characters long, or that contains
a non-digit character, makes the date resolver return the sentinel
`"Invalid date"` (totality of the Lean function embeds "never raises"). -/
theorem date_invalid_on_malformed (k : Bool) (s : String)
    (h : s.data.length ≠ 6 ∨ ¬ s.data.all Char.isDigit) :
    parse_mrz_date k s = "Invalid date" := by
  unfold parse_mrz_date
  exact if_pos h

/-- Closed instance of `date_invalid_on_malformed`: a 5-digit input and
an input with a non-digit character both yield `"Invalid date"`. -/
theorem date_invalid_on_malformed_instance :
    parse_mrz_date true "25011" = "Invalid date" ∧
    parse_mrz_date false "25011X" = "Invalid date" :=
  ⟨date_invalid_on_malformed true "25011" (by decide),
   date_invalid_on_malformed false "25011X" (by decide)⟩

/-- C1: on a 6-digit input, the two-digit year `YY` (the first two
characters) resolves by the fixed pivot 30: for an expiration date the
year component of the output (the digits after position 6) has numeric
value `2000 + YY` when `YY < 30` and `1900 + YY` otherwise; for a birth
date it is `1900 + YY` when `YY > 30` and `2000 + YY` otherwise. -/
theorem date_century_fixed_pivot (s : String)
    (h6 : s.data.length = 6) (hd : s.data.all Char.isDigit) :
    digitsVal ((parse_mrz_date true s).data.drop 6)
        = (if digitsVal (s.data.take 2) < 30
           then 2000 + digitsVal (s.data.take 2)
           else 1900 + digitsVal (s.data.take 2)) ∧
    digitsVal ((parse_mrz_date false s).data.drop 6)
        = (if digitsVal (s.data.take 2) > 30
           then 1900 + digitsVal (s.data.take 2)
           else 2000 + digitsVal (s.data.take 2)) := by
  obtain ⟨a, b, c, d, e, f, hcs⟩ := list_len_eq_six h6
  rw [hcs] at hd
  constructor <;>
  · simp only [parse_mrz_date, hcs, hd, List.length_cons, List.length_nil]
    norm_num
    split_ifs <;>
      simp [digitsVal, data_asString] <;> omega

/-- Closed instance of `date_century_fixed_pivot` at the pivot `YY = 30`:
an expiration date resolves to 1930 and a birth date to 2030. -/
theorem date_century_fixed_pivot_instance :
    digitsVal ((parse_mrz_date true "300101").data.drop 6) = 1930 ∧
    digitsVal ((parse_mrz_date false "300101").data.drop 6) = 2030 := by
  have h := date_century_fixed_pivot "300101" (by decide) (by decide)
  revert h
  decide

/-- C3: on a 6-digit input the date resolver returns `DD/MM/YYYY` where
`DD` is characters 5-6 and `MM` is characters 3-4 of the input, copied
verbatim with no calendar-validity check, and `YYYY` is some 4-digit
year.  Totality of the Lean function embeds "never raises". -/
theorem date_output_format (k : Bool) (s : String)
    (h6 : s.data.length = 6) (hd : s.data.all Char.isDigit) :
    ∃ year : List Char, year.length = 4 ∧ year.all Char.isDigit ∧
      (parse_mrz_date k s).data
        = (s.data.drop 4).take 2 ++ '/' :: ((s.data.drop 2).take 2
            ++ '/' :: year) := by
  obtain ⟨a, b, c, d, e, f, hcs⟩ := list_len_eq_six h6
  rw [hcs] at hd
  simp only [List.all_cons, List.all_nil, Bool.and_eq_true] at hd
  refine ⟨if k then (if digitsVal [a, b] < 30
      then ['2', '0', a, b] else ['1', '9', a, b])
    else (if digitsVal [a, b] > 30
      then ['1', '9', a, b] else ['2', '0', a, b]), ?_, ?_, ?_⟩
  · cases k <;> split_ifs <;> rfl
  · cases k <;> split_ifs <;> simp_all
  · simp only [parse_mrz_date, hcs]
    norm_num [hd]
    cases k <;> split_ifs <;> simp [data_asString]

/-- Closed instance of `date_output_format` on a calendar-invalid but
well-formed input: month 13 and day 32 are formatted verbatim. -/
theorem date_output_format_instance :
    (∃ year : List Char, year.length = 4 ∧ year.all Char.isDigit ∧
      (parse_mrz_date false "991332").data
        = (("991332" : String).data.drop 4).take 2
            ++ '/' :: ((("991332" : String).data.drop 2).take 2
            ++ '/' :: year)) ∧
    parse_mrz_date false "991332" = "32/13/1999" :=
  ⟨date_output_format false "991332" (by decide) (by decide), by decide⟩

lemma data_isEmpty_false_of_ne {s : String} (h : s ≠ "") :
    s.data.isEmpty = false := by
  rcases s with ⟨_ | ⟨a, t⟩⟩
  · exact absurd (by decide) h
  · rfl

lemma mem_nameParts_ne_nil {cs p : List Char} (h : p ∈ nameParts cs) :
    p ≠ [] := by
  unfold nameParts at h
  rw [List.mem_filter] at h
  simpa using h.2

lemma asString_ne_empty {p : List Char} (h : p ≠ []) :
    p.asString ≠ "" := by
  intro hc
  exact h (by simpa [data_asString] using congrArg String.data hc)

lemma isEmpty_false_of_mem {c : Char} {s : String} (h : c ∈ s.data) :
    s.data.isEmpty = false := by
  rcases hcs : s.data with _ | ⟨a, t⟩
  · rw [hcs] at h; simp at h
  · rfl

lemma parse_mrz_name_passthrough {s : String}
    (h1 : s.data.isEmpty = false) (h2 : '<' ∉ s.data) :
    parse_mrz_name (.str s) = s := by
  simp [parse_mrz_name, h1, h2]

lemma parse_mrz_name_ne_empty (v : PyValue) : parse_mrz_name v ≠ "" := by
  cases v with
  | nonStr => decide
  | str s =>
    by_cases h1 : s.data.isEmpty
    · simp [parse_mrz_name, h1]
    · by_cases h2 : '<' ∈ s.data
      · rcases hp : nameParts s.data with _ | ⟨p0, _ | ⟨p1, rest⟩⟩
        · simp [parse_mrz_name, h1, h2, hp]
        · have hne : p0 ≠ [] :=
            mem_nameParts_ne_nil (hp ▸ List.mem_cons_self p0 [])
          simp only [parse_mrz_name, h1, h2, hp, if_neg, if_pos]
          simpa using asString_ne_empty hne
        · simp only [parse_mrz_name, h1, h2, hp, if_neg, if_pos]
          simpa using asString_ne_empty (by simp)
      · rw [parse_mrz_name_passthrough (by simpa using h1) h2]
        intro hc
        exact h1 (by simp [hc])

/-- C4: when the input contains `'<'` and its decomposition (split on
`'<'`, strip, drop empties, order preserved) has at least two segments,
the name resolver returns the second segment, a space, and the first
segment, dropping every later segment. -/
theorem name_two_segments (s : String) (hlt : '<' ∈ s.data)
    (p0 p1 : List Char) (rest : List (List Char))
    (hp : nameParts s.data = p0 :: p1 :: rest) :
    parse_mrz_name (.str s) = (p1 ++ ' ' :: p0).asString := by
  simp [parse_mrz_name, isEmpty_false_of_mem hlt, hlt, hp]

/-- Closed instance of `name_two_segments`: the spec's example
`resolve("DOE<<JOHN<ROBERT") = "JOHN DOE"`, the third segment dropped. -/
theorem name_two_segments_instance :
    parse_mrz_name (.str "DOE<<JOHN<ROBERT") = "JOHN DOE" :=
  (name_two_segments "DOE<<JOHN<ROBERT" (by decide)
    ['D', 'O', 'E'] ['J', 'O', 'H', 'N'] [['R', 'O', 'B', 'E', 'R', 'T']]
    (by decide)).trans (by decide)

/-- C5 fails as stated: the sentinel `"Unknown"` is not returned
*exactly* on the listed inputs — the input `"Unknown"` itself is a
non-empty string without `'<'` (so outside the listed set), yet the
resolver returns the string `"Unknown"` for it via pass-through. -/
theorem name_unknown_not_exact :
    parse_mrz_name (.str "Unknown") = "Unknown" ∧
    ("Unknown" : String) ≠ "" ∧ '<' ∉ ("Unknown" : String).data := by
  decide

/-- C5 (amended): the resolver returns `"Unknown"` on the empty string,
on a `None`/non-string input, and on any string containing `'<'` whose
decomposition has zero non-empty segments; with exactly one non-empty
segment that segment is returned unchanged.  (These are sufficient, not
exhaustive, conditions for the output `"Unknown"`.) -/
theorem name_unknown_cases :
    parse_mrz_name (.str "") = "Unknown" ∧
    parse_mrz_name .nonStr = "Unknown" ∧
    (∀ s : String, '<' ∈ s.data → nameParts s.data = [] →
      parse_mrz_name (.str s) = "Unknown") ∧
    (∀ s : String, ∀ p0 : List Char, '<' ∈ s.data →
      nameParts s.data = [p0] → parse_mrz_name (.str s) = p0.asString) := by
  refine ⟨by decide, by decide, ?_, ?_⟩
  · intro s hlt hp
    simp [parse_mrz_name, isEmpty_false_of_mem hlt, hlt, hp]
  · intro s p0 hlt hp
    simp [parse_mrz_name, isEmpty_false_of_mem hlt, hlt, hp]

/-- Closed instance of `name_unknown_cases`: the all-separator string
`"<<<<"` yields `"Unknown"`, and the single-segment `"DOE<"` is
returned as `"DOE"` unchanged. -/
theorem name_unknown_cases_instance :
    parse_mrz_name (.str "<<<<") = "Unknown" ∧
    parse_mrz_name (.str "DOE<") = "DOE" :=
  ⟨name_unknown_cases.2.2.1 "<<<<" (by decide) (by decide),
   (name_unknown_cases.2.2.2 "DOE<" ['D', 'O', 'E'] (by decide)
     (by decide)).trans (by decide)⟩

/-- C6: a non-empty string without `'<'` passes through the name
resolver unchanged, and consequently the resolver is idempotent on any
result that contains no `'<'`. -/
theorem name_passthrough_idempotent :
    (∀ s : String, s ≠ "" → '<' ∉ s.data → parse_mrz_name (.str s) = s) ∧
    (∀ v : PyValue, '<' ∉ (parse_mrz_name v).data →
      parse_mrz_name (.str (parse_mrz_name v)) = parse_mrz_name v) := by
  constructor
  · intro s hne hsep
    exact parse_mrz_name_passthrough (data_isEmpty_false_of_ne hne) hsep
  · intro v hsep
    exact parse_mrz_name_passthrough
      (data_isEmpty_false_of_ne (parse_mrz_name_ne_empty v)) hsep

/-- Closed instance of `name_passthrough_idempotent`: `"DOE"` passes
through unchanged and re-resolving a resolved value is a no-op. -/
theorem name_passthrough_idempotent_instance :
    parse_mrz_name (.str "DOE") = "DOE" ∧
    parse_mrz_name (.str (parse_mrz_name (.str "DOE<<JOHN")))
      = parse_mrz_name (.str "DOE<<JOHN") :=
  ⟨name_passthrough_idempotent.1 "DOE" (by decide) (by decide),
   name_passthrough_idempotent.2 (.str "DOE<<JOHN") (by decide)⟩

/-- C10: for every input, string or not, the name resolver returns a
non-empty string: always the sentinel `"Unknown"`, the original input
unchanged, or a string built from one or two non-empty trimmed
segments. -/
theorem name_result_nonempty (v : PyValue) :
    parse_mrz_name v ≠ "" ∧
    (parse_mrz_name v = "Unknown" ∨
     (∃ s, v = .str s ∧ parse_mrz_name v = s) ∨
     (∃ s p0, v = .str s ∧ nameParts s.data = [p0] ∧ p0 ≠ [] ∧
        parse_mrz_name v = p0.asString) ∨
     (∃ s p0 p1 rest, v = .str s ∧ nameParts s.data = p0 :: p1 :: rest ∧
        p0 ≠ [] ∧ p1 ≠ [] ∧
        parse_mrz_name v = (p1 ++ ' ' :: p0).asString)) := by
  refine ⟨parse_mrz_name_ne_empty v, ?_⟩
  cases v with
  | nonStr => exact Or.inl rfl
  | str s =>
    by_cases h1 : s.data.isEmpty
    · exact Or.inl (by simp [parse_mrz_name, h1])
    · by_cases h2 : '<' ∈ s.data
      · rcases hp : nameParts s.data with _ | ⟨p0, _ | ⟨p1, rest⟩⟩
        · exact Or.inl (by simp [parse_mrz_name, h1, h2, hp])
        · refine Or.inr (Or.inr (Or.inl ⟨s, p0, rfl, hp,
            mem_nameParts_ne_nil (hp ▸ List.mem_cons_self p0 []), ?_⟩))
          simp [parse_mrz_name, h1, h2, hp]
        · refine Or.inr (Or.inr (Or.inr ⟨s, p0, p1, rest, rfl, hp,
            mem_nameParts_ne_nil (hp ▸ List.mem_cons_self p0 _),
            mem_nameParts_ne_nil
              (hp ▸ List.mem_cons_of_mem p0 (List.mem_cons_self p1 rest)),
            ?_⟩))
          simp [parse_mrz_name, h1, h2, hp]
      · exact Or.inr (Or.inl ⟨s, rfl,
          parse_mrz_name_passthrough (by simpa using h1) h2⟩)

/-- C7: the resolver methods are stateless: the date result depends only
on the raw string and the `is_expiration_date` flag, the name result
only on its raw input, and neither call changes the application state. -/
theorem resolvers_stateless (st1 st2 : AppState) (s : String) (v : PyValue)
    (h : st1.is_expiration_date = st2.is_expiration_date) :
    (parse_mrz_date_method st1 s).1 = (parse_mrz_date_method st2 s).1 ∧
    (parse_mrz_date_method st1 s).2 = st1 ∧
    (parse_mrz_name_method st1 v).1 = (parse_mrz_name_method st2 v).1 ∧
    (parse_mrz_name_method st1 v).2 = st1 := by
  simp [parse_mrz_date_method, parse_mrz_name_method, h]

/-- Closed instance of `resolvers_stateless`: two states that agree on
the flag but differ in the other instance variables give equal results,
and the state is returned unchanged. -/
theorem resolvers_stateless_instance :
    (parse_mrz_date_method ⟨false, none, none⟩ "000101").1
      = (parse_mrz_date_method ⟨false, some "p.png", some "tess"⟩ "000101").1 ∧
    (parse_mrz_date_method ⟨false, none, none⟩ "000101").2
      = ⟨false, none, none⟩ ∧
    (parse_mrz_name_method ⟨false, none, none⟩ (.str "DOE<<JOHN")).1
      = (parse_mrz_name_method ⟨false, some "p.png", some "tess"⟩
          (.str "DOE<<JOHN")).1 ∧
    (parse_mrz_name_method ⟨false, none, none⟩ (.str "DOE<<JOHN")).2
      = ⟨false, none, none⟩ :=
  resolvers_stateless ⟨false, none, none⟩ ⟨false, some "p.png", some "tess"⟩
    "000101" (.str "DOE<<JOHN") rfl

/-- C8: every missing OCR key is defaulted by `scan_mrz` before
resolution: missing date keys become the raw value `"000000"` handed to
the date resolver, missing string keys become `"Unknown"` (the `names`
default being handed to the name resolver). -/
theorem scan_defaults_before_resolvers (m : MrzData) :
    (m.type = none →
      (scan_mrz_fields m)[0]? = some ("Document Type", "Unknown")) ∧
    (m.country = none →
      (scan_mrz_fields m)[1]? = some ("Issuing Country", "Unknown")) ∧
    (m.number = none →
      (scan_mrz_fields m)[2]? = some ("Passport Number", "Unknown")) ∧
    (m.date_of_birth = none →
      (scan_mrz_fields m)[3]?
        = some ("Date of Birth", parse_mrz_date false "000000")) ∧
    (m.expiration_date = none →
      (scan_mrz_fields m)[4]?
        = some ("Expiration Date", parse_mrz_date true "000000")) ∧
    (m.nationality = none →
      (scan_mrz_fields m)[5]? = some ("Nationality", "Unknown")) ∧
    (m.names = none →
      (scan_mrz_fields m)[7]?
        = some ("Full Name", parse_mrz_name (.str "Unknown"))) := by
  refine ⟨?_, ?_, ?_, ?_, ?_, ?_, ?_⟩ <;>
    · intro h
      simp [scan_mrz_fields, h]

/-- Closed instance of `scan_defaults_before_resolvers` with every key
missing: the defaulted dates resolve to `"00/00/2000"` and the
defaulted name to `"Unknown"`. -/
theorem scan_defaults_instance :
    (scan_mrz_fields ⟨none, none, none, none, none, none, none, none⟩)[3]?
      = some ("Date of Birth", "00/00/2000") ∧
    (scan_mrz_fields ⟨none, none, none, none, none, none, none, none⟩)[4]?
      = some ("Expiration Date", "00/00/2000") ∧
    (scan_mrz_fields ⟨none, none, none, none, none, none, none, none⟩)[7]?
      = some ("Full Name", "Unknown") :=
  ⟨((scan_defaults_before_resolvers _).2.2.2.1 rfl).trans (by decide),
   ((scan_defaults_before_resolvers _).2.2.2.2.1 rfl).trans (by decide),
   ((scan_defaults_before_resolvers _).2.2.2.2.2.2 rfl).trans (by decide)⟩

/-- C9: the displayed Gender field is `"Male"` exactly when the raw
`sex` value is the string `"M"`; every other value, a missing key
included, displays as `"Female"`. -/
theorem gender_male_iff (m : MrzData) :
    ((scan_mrz_fields m)[6]? = some ("Gender", "Male") ↔ m.sex = some "M") ∧
    (m.sex ≠ some "M" →
      (scan_mrz_fields m)[6]? = some ("Gender", "Female")) := by
  by_cases h : m.sex = some "M"
  · exact ⟨by simp [scan_mrz_fields, h], fun hc => absurd h hc⟩
  · constructor
    · simp [scan_mrz_fields, h]
    · intro _
      simp [scan_mrz_fields, h]

/-- Closed instance of `gender_male_iff`: `"M"` displays as `"Male"`;
`"F"`, lowercase `"m"` and a missing key display as `"Female"`. -/
theorem gender_male_iff_instance :
    (scan_mrz_fields ⟨none, none, none, none, none, none, some "M", none⟩)[6]?
      = some ("Gender", "Male") ∧
    (scan_mrz_fields ⟨none, none, none, none, none, none, some "F", none⟩)[6]?
      = some ("Gender", "Female") ∧
    (scan_mrz_fields ⟨none, none, none, none, none, none, some "m", none⟩)[6]?
      = some ("Gender", "Female") ∧
    (scan_mrz_fields ⟨none, none, none, none, none, none, none, none⟩)[6]?
      = some ("Gender", "Female") :=
  ⟨(gender_male_iff _).1.mpr rfl,
   (gender_male_iff _).2 (by decide),
   (gender_male_iff _).2 (by decide),
   (gender_male_iff _).2 (by decide)⟩

/-! ## Concrete checks of the testable properties of the spec -/

example : parse_mrz_date false "000101" = "01/01/2000" := by decide
example : parse_mrz_date false "990101" = "01/01/1999" := by decide
example : parse_mrz_date true "250101" = "01/01/2025" := by decide
example : parse_mrz_date true "350101" = "01/01/1935" := by decide
example : parse_mrz_date true "300101" = "01/01/1930" := by decide
example : parse_mrz_date false "300101" = "01/01/2030" := by decide
example : parse_mrz_date true "25011" = "Invalid date" := by decide
example : parse_mrz_date true "25011X" = "Invalid date" := by decide
example : parse_mrz_date false "991332" = "32/13/1999" := by decide
example : parse_mrz_name (.str "DOE<<JOHN<ROBERT") = "JOHN DOE" := by decide
example : parse_mrz_name (.str "DOE") = "DOE" := by decide
example : parse_mrz_name (.str "") = "Unknown" := by decide
example : parse_mrz_name .nonStr = "Unknown" := by decide
example : parse_mrz_name (.str "<<<<") = "Unknown" := by decide
example : parse_mrz_name (.str "Unknown") = "Unknown" := by decide
